import Mathlib

/-!
Shallow embedding of the payment/subscription pipeline of the Django_drf_news
backend (apps/payment and apps/subscribe).  Views, signals, tasks and
serializers are translated from the Python source under src/; the model layer
(`models.py`) and service layer (`services.py`) are not part of the source
tree, so the operations they provide are modelled from the specification and
marked as such in their doc comments.
-/

namespace DrfNews

/-- Payment.status ∈ {pending, processing, succeeded, failed, cancelled}. -/
inductive PaymentStatus where
  | pending
  | processing
  | succeeded
  | failed
  | cancelled
deriving DecidableEq, Repr, Fintype

/-- Subscription.status ∈ {pending, active, cancelled, expired}. -/
inductive SubscriptionStatus where
  | pending
  | active
  | cancelled
  | expired
deriving DecidableEq, Repr

/-- Refund.status ∈ {pending, succeeded, failed}. -/
inductive RefundStatus where
  | pending
  | succeeded
  | failed
deriving DecidableEq, Repr

/-- WebhookEvent.status ∈ {pending, processed, failed, ignored}. -/
inductive WebhookStatus where
  | pending
  | processed
  | failed
  | ignored
deriving DecidableEq, Repr

/-- A Payment row of the ledger.  `stripeSessionId` is the nullable
provider session id; `subscriptionId` the nullable one-to-one link. -/
structure Payment where
  id : Nat
  user : Nat
  amount : Nat
  status : PaymentStatus
  stripeSessionId : Option String
  subscriptionId : Option Nat
deriving DecidableEq, Repr

/-- A Subscription row.  `planDuration` captures plan.duration_days at
creation; dates are Nat timestamps. -/
structure Subscription where
  id : Nat
  user : Nat
  planDuration : Nat
  status : SubscriptionStatus
  startDate : Nat
  endDate : Nat
deriving DecidableEq, Repr

/-- A Refund row. -/
structure Refund where
  id : Nat
  paymentId : Nat
  amount : Nat
  status : RefundStatus
deriving DecidableEq, Repr

/-- The payload of a Stripe event as far as dispatch needs it. -/
structure StripeEvent where
  externalEventId : String
  eventType : String
  sessionId : String
deriving DecidableEq, Repr

/-- A WebhookEvent row: unique external_event_id, raw payload, status,
creation timestamp. -/
structure WebhookEvent where
  externalEventId : String
  data : StripeEvent
  status : WebhookStatus
  createdAt : Nat
deriving DecidableEq, Repr

/-- A PinnedPost row: at most one per user. -/
structure PinnedPost where
  user : Nat
  postId : Nat
deriving DecidableEq, Repr

/-- An append-only SubscriptionHistory row. -/
structure HistoryEntry where
  subscriptionId : Nat
  action : String
deriving DecidableEq, Repr

/-- The durable state the pipeline mutates. -/
structure Ledger where
  payments : List Payment
  subscriptions : List Subscription
  refunds : List Refund
  pinnedPosts : List PinnedPost
  history : List HistoryEntry
  webhookEvents : List WebhookEvent
deriving DecidableEq, Repr

/-- Look up a Payment by primary key. -/
def findPayment (l : Ledger) (pid : Nat) : Option Payment :=
  l.payments.find? (fun p => p.id = pid)

/-- Look up a Payment by provider session id (webhook dispatch path). -/
def findPaymentBySession (l : Ledger) (sid : String) : Option Payment :=
  l.payments.find? (fun p => p.stripeSessionId = some sid)

/-- Look up a Subscription by primary key. -/
def findSubscription (l : Ledger) (sid : Nat) : Option Subscription :=
  l.subscriptions.find? (fun s => s.id = sid)

/-- Look up a WebhookEvent by its unique external_event_id. -/
def findWebhookEvent (l : Ledger) (eid : String) : Option WebhookEvent :=
  l.webhookEvents.find? (fun w => w.externalEventId = eid)

/-- The user's subscription, if any (`hasattr(user, "subscription")`). -/
def userSubscription (l : Ledger) (uid : Nat) : Option Subscription :=
  l.subscriptions.find? (fun s => s.user = uid)

/-- The user's pinned post, if any (`hasattr(user, "pinned_post")`). -/
def userPinnedPost (l : Ledger) (uid : Nat) : Option PinnedPost :=
  l.pinnedPosts.find? (fun p => p.user = uid)

/-- Write a payment row back (Payment.save() after a field change). -/
def setPaymentStatus (l : Ledger) (pid : Nat) (st : PaymentStatus) : Ledger :=
  { l with payments :=
      l.payments.map (fun p => if p.id = pid then { p with status := st } else p) }

/-- Write a subscription row back with a new status. -/
def setSubscriptionStatus (l : Ledger) (sid : Nat) (st : SubscriptionStatus) :
    Ledger :=
  { l with subscriptions :=
      (l.subscriptions.map
        (fun s => if s.id = sid then { s with status := st } else s)) }

/-- Write a refund row back with a new status. -/
def setRefundStatus (l : Ledger) (rid : Nat) (st : RefundStatus) : Ledger :=
  { l with refunds :=
      l.refunds.map (fun r => if r.id = rid then { r with status := st } else r) }

/-- Delete the user's pinned post rows. -/
def removePinnedPostOfUser (l : Ledger) (uid : Nat) : Ledger :=
  { l with pinnedPosts := l.pinnedPosts.filter (fun p => ¬ p.user = uid) }

/-- Append a SubscriptionHistory row (the log is append-only). -/
def addHistory (l : Ledger) (sid : Nat) (action : String) : Ledger :=
  { l with history := l.history ++ [⟨sid, action⟩] }

/-- Set the status of the WebhookEvent with the given external_event_id. -/
def setWebhookStatus (l : Ledger) (eid : String) (st : WebhookStatus) : Ledger :=
  { l with webhookEvents :=
      (l.webhookEvents.map
        (fun w => if w.externalEventId = eid then { w with status := st } else w)) }

/-!
## Modelled service layer

`apps/payment/services.py` and the model methods of `models.py` are not in
the source tree; the definitions below follow the specification's
description of them (§4.1, §4.3, §4.4) and are used exactly where the
source views/signals/tasks call them.
-/

/-- Modelled from the spec: `Subscription.is_active` — the entitlement
predicate "is subscription active"; §3 makes `expired` a status set by an
external collaborator when end_date passes, so activity is status = active. -/
def Subscription.isActive (s : Subscription) : Bool :=
  s.status = SubscriptionStatus.active

/-- Modelled from the spec: `PaymentService.process_successful_payment` —
transitions Payment → succeeded, activates the linked Subscription
(status=active, start_date=now, end_date=now+plan.duration_days) and writes
a SubscriptionHistory "activated" entry; a no-op unless the payment is in
pending or processing (§4.1, §4.2). -/
def processSuccessfulPayment (now : Nat) (l : Ledger) (pid : Nat) : Ledger :=
  match findPayment l pid with
  | none => l
  | some p =>
    if p.status = PaymentStatus.pending ∨ p.status = PaymentStatus.processing then
      let l1 := setPaymentStatus l pid PaymentStatus.succeeded
      match p.subscriptionId with
      | none => l1
      | some sid =>
        match findSubscription l sid with
        | none => l1
        | some s =>
          let l2 := { l1 with subscriptions :=
            l1.subscriptions.map (fun t =>
              if t.id = sid then
                { t with status := SubscriptionStatus.active,
                         startDate := now,
                         endDate := now + s.planDuration }
              else t) }
          addHistory l2 sid "activated"
    else l

/-- Modelled from the spec: `PaymentService.process_failed_payment` —
transitions Payment → failed and a still-pending linked Subscription →
cancelled; a no-op unless the payment is in pending or processing
(§4.1, §4.2). -/
def processFailedPayment (l : Ledger) (pid : Nat) : Ledger :=
  match findPayment l pid with
  | none => l
  | some p =>
    if p.status = PaymentStatus.pending ∨ p.status = PaymentStatus.processing then
      let l1 := setPaymentStatus l pid PaymentStatus.failed
      match p.subscriptionId with
      | none => l1
      | some sid =>
        match findSubscription l sid with
        | none => l1
        | some s =>
          if s.status = SubscriptionStatus.pending then
            setSubscriptionStatus l1 sid SubscriptionStatus.cancelled
          else l1
    else l

/-- Modelled from the spec: `PaymentService.cancel_subscription` (also the
body of `Subscription.cancel()`) — transitions the Subscription → cancelled,
deletes any PinnedPost for its user, writes a history entry (§4.1). -/
def cancelSubscription (l : Ledger) (sid : Nat) : Ledger :=
  match findSubscription l sid with
  | none => l
  | some s =>
    let l1 := setSubscriptionStatus l sid SubscriptionStatus.cancelled
    let l2 := removePinnedPostOfUser l1 s.user
    addHistory l2 sid "cancelled"

/-- The two event types the dispatch step recognises (§4.3 step 3). -/
def isKnownEventType (t : String) : Bool :=
  t = "checkout.session.completed" ∨ t = "payment_intent.payment_failed"

/-- Modelled from the spec: the dispatch step of
`WebhookService.process_stripe_webhook` (§4.3 step 3) — resolve the local
Payment by provider_session_id and call the matching Payment Service
transition; `none` models a handler exception (e.g. no such payment). -/
def dispatchEvent (now : Nat) (l : Ledger) (e : StripeEvent) : Option Ledger :=
  if e.eventType = "checkout.session.completed" then
    match findPaymentBySession l e.sessionId with
    | some p => some (processSuccessfulPayment now l p.id)
    | none => none
  else if e.eventType = "payment_intent.payment_failed" then
    match findPaymentBySession l e.sessionId with
    | some p => some (processFailedPayment l p.id)
    | none => none
  else none

/-- Modelled from the spec: steps 3–5 of `WebhookService.process_stripe_webhook`
— dispatch; on success mark the WebhookEvent processed, on handler exception
mark it failed and report failure, on an unrecognised type mark it ignored
and report success (§4.3). -/
def runDispatch (now : Nat) (l : Ledger) (e : StripeEvent) : Bool × Ledger :=
  if isKnownEventType e.eventType then
    match dispatchEvent now l e with
    | some l2 => (true, setWebhookStatus l2 e.externalEventId WebhookStatus.processed)
    | none => (false, setWebhookStatus l e.externalEventId WebhookStatus.failed)
  else
    (true, setWebhookStatus l e.externalEventId WebhookStatus.ignored)

/-- Modelled from the spec: `WebhookService.process_stripe_webhook` (§4.3) —
look up the WebhookEvent by external_event_id; if found and already
processed, return success immediately (dedup no-op); if not found, insert a
new pending WebhookEvent with the raw payload; then dispatch. -/
def processStripeWebhook (now : Nat) (l : Ledger) (e : StripeEvent) :
    Bool × Ledger :=
  match findWebhookEvent l e.externalEventId with
  | some w =>
    if w.status = WebhookStatus.processed then (true, l)
    else runDispatch now l e
  | none =>
    let l1 := { l with webhookEvents :=
      (l.webhookEvents ++ [⟨e.externalEventId, e, WebhookStatus.pending, now⟩]) }
    runDispatch now l1 e

/-!
## Views (`apps/payment/views.py`, in the source tree)
-/

/-- Outcome of `stripe.Webhook.construct_event` in `stripe_webhook`:
a verified event, a `ValueError` (payload parse failure) or a
`SignatureVerificationError`. -/
inductive ConstructEventResult where
  | ok (e : StripeEvent)
  | valueError
  | signatureVerificationError
deriving DecidableEq, Repr

/-- The `stripe_webhook` view: on a parse or signature failure return
HTTP 400 before touching anything; otherwise hand the event to
`WebhookService.process_stripe_webhook` and map its boolean to 200/400. -/
def stripe_webhook (now : Nat) (l : Ledger) (r : ConstructEventResult) :
    Nat × Ledger :=
  match r with
  | ConstructEventResult.valueError => (400, l)
  | ConstructEventResult.signatureVerificationError => (400, l)
  | ConstructEventResult.ok e =>
    let res := processStripeWebhook now l e
    (if res.1 then 200 else 400, res.2)

/-- The `payment_status` view: if the payment has a stripe_session_id and
its status is pending or processing, retrieve the session from Stripe
(`retrieveSession` is the gateway oracle) and replay the webhook-path
transition; the Bool records whether the provider was queried. -/
def payment_status (now : Nat) (l : Ledger) (pid : Nat)
    (retrieveSession : String → Option String) : Bool × Ledger :=
  match findPayment l pid with
  | none => (false, l)
  | some p =>
    match p.stripeSessionId with
    | none => (false, l)
    | some sid =>
      if p.status = PaymentStatus.pending ∨ p.status = PaymentStatus.processing then
        match retrieveSession sid with
        | some st =>
          if st = "complete" then (true, processSuccessfulPayment now l p.id)
          else if st = "failed" then (true, processFailedPayment l p.id)
          else (true, l)
        | none => (true, l)
      else (false, l)

/-- Result of the `cancel_payment` view. -/
inductive CancelResult where
  | success
  | errorNotPending
  | notFound
deriving DecidableEq, Repr

/-- The `cancel_payment` view: only a pending payment may be cancelled
(`payment.is_pending`, modelled from the spec as status = pending); it is
set to cancelled and, if a subscription is linked, `subscription.cancel()`
is called with no further condition. -/
def cancel_payment (l : Ledger) (pid : Nat) : CancelResult × Ledger :=
  match findPayment l pid with
  | none => (CancelResult.notFound, l)
  | some p =>
    if ¬ p.status = PaymentStatus.pending then (CancelResult.errorNotPending, l)
    else
      let l1 := setPaymentStatus l pid PaymentStatus.cancelled
      match p.subscriptionId with
      | some sid => (CancelResult.success, cancelSubscription l1 sid)
      | none => (CancelResult.success, l1)

/-- Sum of the amounts of succeeded refunds of a payment. -/
def sumSucceededRefunds (l : Ledger) (pid : Nat) : Nat :=
  (l.refunds.filter
    (fun r => r.paymentId = pid ∧ r.status = RefundStatus.succeeded)).foldl
    (fun a r => a + r.amount) 0

/-- Modelled from the spec: `Payment.can_be_refunded` — the payment is in a
refundable state: succeeded and not already fully refunded (§4.4). -/
def canBeRefunded (l : Ledger) (p : Payment) : Bool :=
  p.status = PaymentStatus.succeeded ∧ sumSucceededRefunds l p.id < p.amount

/-- Result of the `create_refund` view. -/
inductive RefundResult where
  | created
  | providerFailed
  | cannotRefund
  | invalidAmount
  | notFound
deriving DecidableEq, Repr

/-- The `create_refund` view: reject a non-refundable payment; validate the
amount against the remaining refundable amount
(`RefundCreateSerializer`, modelled from the spec §4.4); create the Refund
(status pending, fresh id `rid`); call the Stripe refund
(`providerSuccess` is the gateway outcome).  On success
`refund.process_refund()` (modelled from the spec: Refund → succeeded) and,
if the amount equals the payment amount and a subscription is linked,
`PaymentService.cancel_subscription`.  On failure the refund is saved as
failed. -/
def create_refund (l : Ledger) (pid rid amount : Nat) (providerSuccess : Bool) :
    RefundResult × Ledger :=
  match findPayment l pid with
  | none => (RefundResult.notFound, l)
  | some p =>
    if ¬ canBeRefunded l p = true then (RefundResult.cannotRefund, l)
    else if ¬ amount ≤ p.amount - sumSucceededRefunds l p.id then
      (RefundResult.invalidAmount, l)
    else
      let l1 := { l with refunds :=
        (l.refunds ++ [⟨rid, pid, amount, RefundStatus.pending⟩]) }
      if providerSuccess then
        let l2 := setRefundStatus l1 rid RefundStatus.succeeded
        match p.subscriptionId with
        | some sid =>
          if amount = p.amount then (RefundResult.created, cancelSubscription l2 sid)
          else (RefundResult.created, l2)
        | none => (RefundResult.created, l2)
      else
        (RefundResult.providerFailed, setRefundStatus l1 rid RefundStatus.failed)

/-!
## Tasks (`apps/payment/tasks.py`, in the source tree)
-/

/-- The retry window start, `timezone.now() - timedelta(hours=24)`, with Nat
timestamps in seconds. -/
def retryCutoff (now : Nat) : Nat := now - 86400

/-- The queryset of `retry_failed_webhook_events`: WebhookEvents with
status failed created within the last 24 hours, limited to 50 per run. -/
def failedEventsBatch (now : Nat) (events : List WebhookEvent) :
    List WebhookEvent :=
  (events.filter
    (fun w => w.status = WebhookStatus.failed ∧ retryCutoff now ≤ w.createdAt)).take 50

/-- The `retry_failed_webhook_events` task: re-process each event of the
batch; on success mark it processed and count it. -/
def retry_failed_webhook_events (now : Nat) (l : Ledger) : Nat × Ledger :=
  (failedEventsBatch now l.webhookEvents).foldl
    (fun acc w =>
      let res := processStripeWebhook now acc.2 w.data
      if res.1 then
        (acc.1 + 1, setWebhookStatus res.2 w.externalEventId WebhookStatus.processed)
      else (acc.1, res.2))
    (0, l)

/-!
## Signals (`apps/payment/signals.py`, in the source tree)
-/

/-- Which Payment Service operation `payment_post_save` triggers. -/
inductive PaymentServiceCall where
  | processSuccessfulCall
  | processFailedCall
deriving DecidableEq, Repr

/-- The `payment_post_save` signal handler: on a non-created save with a
recorded previous status, call `process_successful_payment` when the status
changed from pending or processing to succeeded, `process_failed_payment`
when it changed from pending or processing to failed, and nothing
otherwise.  `previousStatus = none` covers both a missing
`_previous_status` attribute and a `DoesNotExist` in `payment_pre_save`. -/
def payment_post_save (created : Bool) (previousStatus : Option PaymentStatus)
    (currentStatus : PaymentStatus) : Option PaymentServiceCall :=
  if created then none
  else
    match previousStatus with
    | none => none
    | some prev =>
      if (prev = PaymentStatus.pending ∨ prev = PaymentStatus.processing) ∧
          currentStatus = PaymentStatus.succeeded then
        some PaymentServiceCall.processSuccessfulCall
      else if (prev = PaymentStatus.pending ∨ prev = PaymentStatus.processing) ∧
          currentStatus = PaymentStatus.failed then
        some PaymentServiceCall.processFailedCall
      else none

/-!
## Signals (`apps/subscribe/signals.py`, in the source tree)
-/

/-- The `pinned_post_pre_delete` handler: write a "post_unpinned" history
row when the user has a subscription. -/
def pinned_post_pre_delete (l : Ledger) (pp : PinnedPost) : Ledger :=
  match userSubscription l pp.user with
  | some s => addHistory l s.id "post_unpinned"
  | none => l

/-- Row deletion `PinnedPost.delete()`: fire the pre_delete handler, then
remove the row. -/
def deletePinnedPost (l : Ledger) (pp : PinnedPost) : Ledger :=
  let l1 := pinned_post_pre_delete l pp
  { l1 with pinnedPosts := l1.pinnedPosts.filter (fun q => ¬ q = pp) }

/-- The `subscription_pre_delete` handler: delete the user's pinned post if
one exists (`try … except PinnedPost.DoesNotExist: pass`). -/
def subscription_pre_delete (l : Ledger) (s : Subscription) : Ledger :=
  match userPinnedPost l s.user with
  | some pp => deletePinnedPost l pp
  | none => l

/-- Row deletion `Subscription.delete()`: fire the pre_delete handler, then
remove the subscription row. -/
def deleteSubscription (l : Ledger) (sid : Nat) : Ledger :=
  match findSubscription l sid with
  | none => l
  | some s =>
    let l1 := subscription_pre_delete l s
    { l1 with subscriptions := l1.subscriptions.filter (fun t => ¬ t.id = sid) }

/-- The `pinned_post_post_save` handler: on creation, delete the pinned post
again when the user has no subscription or an inactive one; otherwise write
a "post_pinned" history row.  The ledger already contains the new row. -/
def pinned_post_post_save (l : Ledger) (created : Bool) (pp : PinnedPost) :
    Ledger :=
  if created then
    match userSubscription l pp.user with
    | none => deletePinnedPost l pp
    | some s =>
      if ¬ s.isActive = true then deletePinnedPost l pp
      else addHistory l s.id "post_pinned"
  else l

/-!
## Serializers (`apps/subscribe/serializers.py`, in the source tree)
-/

/-- A Post as far as pinning needs it. -/
structure PostRec where
  id : Nat
  author : Nat
  status : String
deriving DecidableEq, Repr

/-- The field validator `PinnedPostSerializer.validate_post`: the post must
be authored by the
requesting user and be published. -/
def PinnedPostSerializer.validate_post (uid : Nat) (post : PostRec) :
    Except String PostRec :=
  if ¬ post.author = uid then
    Except.error "You can ony pinned your posts."
  else if ¬ post.status = "published" then
    Except.error "Only published posts can be pinned."
  else Except.ok post

/-- The method `PinnedPostSerializer.validete`, exactly as spelled in the
source:
rejects when the user has no subscription or an inactive one.  The
framework's object-level validation hook is named `validate`, so a method
named `validete` is never invoked during `is_valid()`. -/
def PinnedPostSerializer.validete (l : Ledger) (uid : Nat) :
    Except String Unit :=
  match userSubscription l uid with
  | none => Except.error "Active subscription required to pin posts."
  | some s =>
    if ¬ s.isActive = true then
      Except.error "Active subscription required to pin posts."
    else Except.ok ()

/-- The object-level `validate` the framework actually runs for
`PinnedPostSerializer`: the class defines no method of that name (only
`validete`), so the inherited default applies, returning attrs unchanged. -/
def PinnedPostSerializer.validate (attrs : PostRec) : Except String PostRec :=
  Except.ok attrs

/-- Validation entry `is_valid()` for `PinnedPostSerializer`: run the `post`
field validator,
then the object-level `validate` hook. -/
def PinnedPostSerializer.is_valid (_l : Ledger) (uid : Nat) (post : PostRec) :
    Bool :=
  match PinnedPostSerializer.validate_post uid post with
  | Except.error _ => false
  | Except.ok attrs =>
    match PinnedPostSerializer.validate attrs with
    | Except.error _ => false
    | Except.ok _ => true

/-- Creation `PinnedPostSerializer.create` / `.save()`: insert the
PinnedPost row for
the requesting user.  (`l` is unused by the insert itself beyond carrying
the tables; the post_save signal is modelled separately.) -/
def PinnedPostSerializer.save (l : Ledger) (uid : Nat) (post : PostRec) :
    Ledger :=
  { l with pinnedPosts := (l.pinnedPosts ++ [⟨uid, post.id⟩]) }

/-- A full pin-creation attempt through `PinnedPostSerializer`: validate,
insert on success, then fire `pinned_post_post_save` as Django does. -/
def pinAttempt (l : Ledger) (uid : Nat) (post : PostRec) : Bool × Ledger :=
  if PinnedPostSerializer.is_valid l uid post then
    let l1 := PinnedPostSerializer.save l uid post
    (true, pinned_post_post_save l1 true ⟨uid, post.id⟩)
  else (false, l)

/-!
## Boolean observations used by the theorems
-/

/-- No pinned post for the given user remains in the ledger. -/
def noPinnedFor (l : Ledger) (uid : Nat) : Bool :=
  l.pinnedPosts.all (fun q => ¬ q.user = uid)

/-- Every payment row with the given id has the given status. -/
def paymentHasStatus (l : Ledger) (pid : Nat) (st : PaymentStatus) : Bool :=
  l.payments.all (fun p => if p.id = pid then p.status = st else true)

/-- Every subscription row with the given id has the given status. -/
def subscriptionHasStatus (l : Ledger) (sid : Nat) (st : SubscriptionStatus) :
    Bool :=
  l.subscriptions.all (fun s => if s.id = sid then s.status = st else true)

/-- Every event of the list is failed and within the retry window. -/
def batchEligible (now : Nat) (events : List WebhookEvent) : Bool :=
  events.all
    (fun w => w.status = WebhookStatus.failed ∧ retryCutoff now ≤ w.createdAt)

/-- Fixed session-status oracles used when stating the reconciliation claims. -/
def sessionComplete : String → Option String := fun _ => some "complete"

/-- Oracle reporting the session failed. -/
def sessionFailed : String → Option String := fun _ => some "failed"

/-- Oracle reporting no session information. -/
def sessionUnknown : String → Option String := fun _ => none

/-- Concrete ledgers for exercising the reconciliation path: a stale
pending payment with a session, one with no session, one already terminal. -/
def c7Ledger : Ledger :=
  ⟨[⟨1, 1, 1000, PaymentStatus.pending, some "cs_1", some 4⟩],
   [⟨4, 1, 30, SubscriptionStatus.pending, 0, 0⟩], [], [], [], []⟩

/-- The stale pending payment of `c7Ledger`. -/
def c7Payment : Payment := ⟨1, 1, 1000, PaymentStatus.pending, some "cs_1", some 4⟩

/-- A ledger whose payment has no provider session id. -/
def c7NoSession : Ledger :=
  ⟨[⟨2, 1, 500, PaymentStatus.pending, none, none⟩], [], [], [], [], []⟩

/-- The session-less payment of `c7NoSession`. -/
def c7PaymentNoSession : Payment := ⟨2, 1, 500, PaymentStatus.pending, none, none⟩

/-- A ledger whose payment is already terminal. -/
def c7Terminal : Ledger :=
  ⟨[⟨3, 1, 500, PaymentStatus.succeeded, some "cs_3", none⟩], [], [], [], [], []⟩

/-- The already-succeeded payment of `c7Terminal`. -/
def c7PaymentTerminal : Payment :=
  ⟨3, 1, 500, PaymentStatus.succeeded, some "cs_3", none⟩

/-!
## Theorems
-/

/-- Updating a payment's status makes every row with that id carry it. -/
lemma paymentHasStatus_set (l : Ledger) (pid : Nat) (st : PaymentStatus) :
    paymentHasStatus (setPaymentStatus l pid st) pid st = true := by
  rw [paymentHasStatus, List.all_eq_true]
  intro q hq
  rw [setPaymentStatus] at hq
  simp only [List.mem_map] at hq
  obtain ⟨q0, _, rfl⟩ := hq
  by_cases h : q0.id = pid <;> simp [h]

/-- Updating a subscription's status makes every row with that id carry it. -/
lemma subscriptionHasStatus_set (l : Ledger) (sid : Nat)
    (st : SubscriptionStatus) :
    subscriptionHasStatus (setSubscriptionStatus l sid st) sid st = true := by
  rw [subscriptionHasStatus, List.all_eq_true]
  intro q hq
  rw [setSubscriptionStatus] at hq
  simp only [List.mem_map] at hq
  obtain ⟨q0, _, rfl⟩ := hq
  by_cases h : q0.id = sid <;> simp [h]

/-- After `removePinnedPostOfUser` no pinned post of that user remains. -/
lemma noPinnedFor_remove (l : Ledger) (uid : Nat) :
    noPinnedFor (removePinnedPostOfUser l uid) uid = true := by
  rw [noPinnedFor, List.all_eq_true]
  intro q hq
  rw [removePinnedPostOfUser] at hq
  simp only [List.mem_filter] at hq
  simpa using hq.2

/-- The successful-payment transition neither reads nor writes webhook
rows, so it commutes with changing them. -/
lemma processSuccessfulPayment_webhookEvents (now : Nat) (l : Ledger)
    (W : List WebhookEvent) (pid : Nat) :
    processSuccessfulPayment now { l with webhookEvents := W } pid
      = { processSuccessfulPayment now l pid with webhookEvents := W } := by
  cases l with
  | mk pay subs refs pins hist webs =>
    unfold processSuccessfulPayment findPayment findSubscription
      setPaymentStatus addHistory
    dsimp only
    cases hf : pay.find? (fun p => p.id = pid) with
    | none => rfl
    | some p =>
      dsimp only
      split
      · cases p.subscriptionId with
        | none => rfl
        | some sid =>
          dsimp only
          cases hs : subs.find? (fun s => s.id = sid) with
          | none => rfl
          | some s => rfl
      · rfl

/-- The failed-payment transition neither reads nor writes webhook rows. -/
lemma processFailedPayment_webhookEvents (l : Ledger)
    (W : List WebhookEvent) (pid : Nat) :
    processFailedPayment { l with webhookEvents := W } pid
      = { processFailedPayment l pid with webhookEvents := W } := by
  cases l with
  | mk pay subs refs pins hist webs =>
    unfold processFailedPayment findPayment findSubscription
      setPaymentStatus setSubscriptionStatus
    dsimp only
    cases hf : pay.find? (fun p => p.id = pid) with
    | none => rfl
    | some p =>
      dsimp only
      split
      · cases p.subscriptionId with
        | none => rfl
        | some sid =>
          dsimp only
          cases hs : subs.find? (fun s => s.id = sid) with
          | none => rfl
          | some s =>
            dsimp only
            split
            · rfl
            · rfl
      · rfl

/-- A fresh checkout-completed event resolves the payment by session id and
applies `process_successful_payment`, then marks the event processed. -/
lemma processStripeWebhook_completed (now : Nat) (l : Ledger)
    (eid sid : String) (p : Payment)
    (hnew : findWebhookEvent l eid = none)
    (hsess : findPaymentBySession l sid = some p) :
    processStripeWebhook now l ⟨eid, "checkout.session.completed", sid⟩
      = (true,
         setWebhookStatus
           { processSuccessfulPayment now l p.id with
             webhookEvents := (l.webhookEvents ++
               [⟨eid, ⟨eid, "checkout.session.completed", sid⟩,
                 WebhookStatus.pending, now⟩]) }
           eid WebhookStatus.processed) := by
  have hsess2 : findPaymentBySession
      { l with webhookEvents := (l.webhookEvents ++
        [⟨eid, ⟨eid, "checkout.session.completed", sid⟩,
          WebhookStatus.pending, now⟩]) } sid = some p := hsess
  unfold processStripeWebhook
  dsimp only
  rw [hnew]
  unfold runDispatch dispatchEvent
  dsimp only
  rw [hsess2]
  have hk : isKnownEventType "checkout.session.completed" = true := by decide
  simp only [hk, if_true, reduceIte]
  rw [processSuccessfulPayment_webhookEvents]

/-- A fresh payment-failed event resolves the payment by session id and
applies `process_failed_payment`, then marks the event processed. -/
lemma processStripeWebhook_failedEvent (now : Nat) (l : Ledger)
    (eid sid : String) (p : Payment)
    (hnew : findWebhookEvent l eid = none)
    (hsess : findPaymentBySession l sid = some p) :
    processStripeWebhook now l ⟨eid, "payment_intent.payment_failed", sid⟩
      = (true,
         setWebhookStatus
           { processFailedPayment l p.id with
             webhookEvents := (l.webhookEvents ++
               [⟨eid, ⟨eid, "payment_intent.payment_failed", sid⟩,
                 WebhookStatus.pending, now⟩]) }
           eid WebhookStatus.processed) := by
  have hsess2 : findPaymentBySession
      { l with webhookEvents := (l.webhookEvents ++
        [⟨eid, ⟨eid, "payment_intent.payment_failed", sid⟩,
          WebhookStatus.pending, now⟩]) } sid = some p := hsess
  unfold processStripeWebhook
  dsimp only
  rw [hnew]
  unfold runDispatch dispatchEvent
  dsimp only
  rw [hsess2]
  have hk : isKnownEventType "payment_intent.payment_failed" = true := by decide
  simp only [hk, if_true, reduceIte]
  rw [processFailedPayment_webhookEvents]
  rw [if_neg (show ¬ ("payment_intent.payment_failed" : String)
    = "checkout.session.completed" from by decide)]

/-- The `pinned_post_pre_delete` handler only writes history. -/
lemma pinned_post_pre_delete_pinned (l : Ledger) (pp : PinnedPost) :
    (pinned_post_pre_delete l pp).pinnedPosts = l.pinnedPosts := by
  unfold pinned_post_pre_delete
  cases h : userSubscription l pp.user <;> simp [addHistory]

/-- C1: processing the same external_event_id again after the first
application has been marked processed is a no-op — the call returns success
and the ledger is returned unchanged (zero additional writes: no second
subscription activation, no duplicate history rows). -/
theorem webhook_duplicate_event_is_noop (now : Nat) (l : Ledger)
    (e : StripeEvent) (w : WebhookEvent)
    (hfind : findWebhookEvent l e.externalEventId = some w)
    (hproc : w.status = WebhookStatus.processed) :
    processStripeWebhook now l e = (true, l) := by
  unfold processStripeWebhook
  rw [hfind]
  simp [hproc]

/-- Witness for C1 at a concrete ledger holding the already-processed event. -/
theorem webhook_duplicate_event_is_noop_witness :
    processStripeWebhook 10
      (⟨[], [], [], [], [],
        [⟨"evt_1", ⟨"evt_1", "checkout.session.completed", "cs_1"⟩,
          WebhookStatus.processed, 0⟩]⟩ : Ledger)
      (⟨"evt_1", "checkout.session.completed", "cs_1"⟩ : StripeEvent)
    = (true,
       (⟨[], [], [], [], [],
        [⟨"evt_1", ⟨"evt_1", "checkout.session.completed", "cs_1"⟩,
          WebhookStatus.processed, 0⟩]⟩ : Ledger)) :=
  webhook_duplicate_event_is_noop 10 _ _
    (⟨"evt_1", ⟨"evt_1", "checkout.session.completed", "cs_1"⟩,
      WebhookStatus.processed, 0⟩ : WebhookEvent)
    (by decide) (by decide)

/-- C2: the post-save handler triggers the succeeded (resp. failed)
transition exactly on a non-created save whose recorded previous status is
pending or processing and whose new status is succeeded (resp. failed); in
every other case it triggers nothing — a no-op, not an error. -/
theorem payment_post_save_transition_guard :
    ∀ (created : Bool) (prev : Option PaymentStatus) (cur : PaymentStatus),
      (payment_post_save created prev cur
          = some PaymentServiceCall.processSuccessfulCall ↔
        created = false ∧
          (prev = some PaymentStatus.pending ∨
            prev = some PaymentStatus.processing) ∧
          cur = PaymentStatus.succeeded) ∧
      (payment_post_save created prev cur
          = some PaymentServiceCall.processFailedCall ↔
        created = false ∧
          (prev = some PaymentStatus.pending ∨
            prev = some PaymentStatus.processing) ∧
          cur = PaymentStatus.failed) := by decide

/-- C5: a payload parse failure (ValueError) or a signature verification
failure makes `stripe_webhook` return 400 with the ledger untouched — no
WebhookEvent inserted, no Payment or Subscription transitioned. -/
theorem webhook_verification_failure_no_ledger_change (now : Nat) (l : Ledger) :
    stripe_webhook now l ConstructEventResult.valueError = (400, l) ∧
    stripe_webhook now l ConstructEventResult.signatureVerificationError
      = (400, l) :=
  ⟨rfl, rfl⟩

/-- C8: each run of the failed-webhook retry job selects only events with
status failed created within the last 24 hours, at most 50 of them. -/
theorem retry_batch_bounded_and_eligible (now : Nat) (l : Ledger) :
    (failedEventsBatch now l.webhookEvents).length ≤ 50 ∧
    batchEligible now (failedEventsBatch now l.webhookEvents) = true := by
  constructor
  · exact List.length_take_le 50 _
  · rw [batchEligible, List.all_eq_true]
    intro w hw
    rw [failedEventsBatch] at hw
    have hw2 : w ∈ List.filter
        (fun w => decide (w.status = WebhookStatus.failed ∧
          retryCutoff now ≤ w.createdAt)) l.webhookEvents :=
      List.take_subset 50 _ hw
    exact @List.of_mem_filter _
      (fun w => decide (w.status = WebhookStatus.failed ∧
        retryCutoff now ≤ w.createdAt)) w l.webhookEvents hw2

/-- C6 (the code at the failing input): for a user with no subscription at
all and their own published post, `PinnedPostSerializer.is_valid()` still
succeeds and the save inserts a PinnedPost row — the object-level
subscription check was written in a method named `validete`, which the
framework's validation never invokes; that method's own body, run directly,
does reject the request. -/
theorem pin_without_subscription_not_rejected :
    PinnedPostSerializer.is_valid (⟨[], [], [], [], [], []⟩ : Ledger) 1
        (⟨7, 1, "published"⟩ : PostRec) = true ∧
    (PinnedPostSerializer.save (⟨[], [], [], [], [], []⟩ : Ledger) 1
        (⟨7, 1, "published"⟩ : PostRec)).pinnedPosts
      = [(⟨1, 7⟩ : PinnedPost)] ∧
    PinnedPostSerializer.validete (⟨[], [], [], [], [], []⟩ : Ledger) 1
      = Except.error "Active subscription required to pin posts." :=
  ⟨rfl, rfl, rfl⟩

/-- The reactive guard does fire: the same pin attempt ends with the
post_save handler deleting the just-created row, so no PinnedPost persists
— yet the attempt itself was reported as valid, not rejected. -/
theorem pin_without_subscription_reactive_cleanup :
    (pinAttempt (⟨[], [], [], [], [], []⟩ : Ledger) 1
        (⟨7, 1, "published"⟩ : PostRec)).1 = true ∧
    (pinAttempt (⟨[], [], [], [], [], []⟩ : Ledger) 1
        (⟨7, 1, "published"⟩ : PostRec)).2.pinnedPosts = [] :=
  ⟨rfl, rfl⟩

/-- C9: cancelling a pending payment succeeds, the payment becomes
cancelled, and a linked subscription — whose status is left arbitrary here
— has `cancel()` applied: it becomes cancelled, its user's pinned post is
removed and a "cancelled" history row is written; a non-pending payment is
rejected with an error and the ledger is returned unchanged. -/
theorem cancel_payment_unconditional_subscription_cancel
    (l : Ledger) (p : Payment) (sid : Nat) (s : Subscription)
    (l2 : Ledger) (p2 : Payment)
    (hp : findPayment l p.id = some p)
    (hpend : p.status = PaymentStatus.pending)
    (hsub : p.subscriptionId = some sid)
    (hs : findSubscription l sid = some s)
    (hp2 : findPayment l2 p2.id = some p2)
    (hnp2 : ¬ p2.status = PaymentStatus.pending) :
    (cancel_payment l p.id).1 = CancelResult.success ∧
    paymentHasStatus (cancel_payment l p.id).2 p.id PaymentStatus.cancelled
      = true ∧
    subscriptionHasStatus (cancel_payment l p.id).2 sid
      SubscriptionStatus.cancelled = true ∧
    (⟨sid, "cancelled"⟩ : HistoryEntry) ∈ (cancel_payment l p.id).2.history ∧
    noPinnedFor (cancel_payment l p.id).2 s.user = true ∧
    cancel_payment l2 p2.id = (CancelResult.errorNotPending, l2) := by
  have hres : cancel_payment l p.id
      = (CancelResult.success,
         cancelSubscription (setPaymentStatus l p.id PaymentStatus.cancelled)
           sid) := by
    unfold cancel_payment
    rw [hp]
    simp [hpend, hsub]
  have hfs : findSubscription
      (setPaymentStatus l p.id PaymentStatus.cancelled) sid = some s := hs
  have hcs : cancelSubscription
        (setPaymentStatus l p.id PaymentStatus.cancelled) sid
      = addHistory
          (removePinnedPostOfUser
            (setSubscriptionStatus
              (setPaymentStatus l p.id PaymentStatus.cancelled) sid
              SubscriptionStatus.cancelled) s.user)
          sid "cancelled" := by
    unfold cancelSubscription
    rw [hfs]
  refine ⟨by rw [hres], ?_, ?_, ?_, ?_, ?_⟩
  · rw [hres, hcs]
    exact paymentHasStatus_set l p.id PaymentStatus.cancelled
  · rw [hres, hcs]
    exact subscriptionHasStatus_set
      (setPaymentStatus l p.id PaymentStatus.cancelled) sid
      SubscriptionStatus.cancelled
  · rw [hres, hcs]
    simp [addHistory]
  · rw [hres, hcs]
    exact noPinnedFor_remove
      (setSubscriptionStatus (setPaymentStatus l p.id PaymentStatus.cancelled)
        sid SubscriptionStatus.cancelled) s.user
  · unfold cancel_payment
    rw [hp2]
    simp [hnp2]

/-- Witness for C9: a pending payment linked to an *expired* subscription —
cancel() is applied to it all the same — and a succeeded payment whose
cancellation is rejected without change. -/
theorem cancel_payment_unconditional_subscription_cancel_witness :
    (cancel_payment
      (⟨[⟨1, 1, 1000, PaymentStatus.pending, some "cs_1", some 4⟩],
        [⟨4, 1, 30, SubscriptionStatus.expired, 0, 0⟩], [], [⟨1, 7⟩], [],
        []⟩ : Ledger) 1).1 = CancelResult.success ∧
    paymentHasStatus
      (cancel_payment
        (⟨[⟨1, 1, 1000, PaymentStatus.pending, some "cs_1", some 4⟩],
          [⟨4, 1, 30, SubscriptionStatus.expired, 0, 0⟩], [], [⟨1, 7⟩], [],
          []⟩ : Ledger) 1).2 1 PaymentStatus.cancelled = true ∧
    subscriptionHasStatus
      (cancel_payment
        (⟨[⟨1, 1, 1000, PaymentStatus.pending, some "cs_1", some 4⟩],
          [⟨4, 1, 30, SubscriptionStatus.expired, 0, 0⟩], [], [⟨1, 7⟩], [],
          []⟩ : Ledger) 1).2 4 SubscriptionStatus.cancelled = true ∧
    (⟨4, "cancelled"⟩ : HistoryEntry) ∈
      (cancel_payment
        (⟨[⟨1, 1, 1000, PaymentStatus.pending, some "cs_1", some 4⟩],
          [⟨4, 1, 30, SubscriptionStatus.expired, 0, 0⟩], [], [⟨1, 7⟩], [],
          []⟩ : Ledger) 1).2.history ∧
    noPinnedFor
      (cancel_payment
        (⟨[⟨1, 1, 1000, PaymentStatus.pending, some "cs_1", some 4⟩],
          [⟨4, 1, 30, SubscriptionStatus.expired, 0, 0⟩], [], [⟨1, 7⟩], [],
          []⟩ : Ledger) 1).2 1 = true ∧
    cancel_payment
      (⟨[⟨2, 1, 1000, PaymentStatus.succeeded, some "cs_2", none⟩], [], [],
        [], [], []⟩ : Ledger) 2
      = (CancelResult.errorNotPending,
         (⟨[⟨2, 1, 1000, PaymentStatus.succeeded, some "cs_2", none⟩], [], [],
           [], [], []⟩ : Ledger)) :=
  cancel_payment_unconditional_subscription_cancel
    _ (⟨1, 1, 1000, PaymentStatus.pending, some "cs_1", some 4⟩ : Payment) 4
    (⟨4, 1, 30, SubscriptionStatus.expired, 0, 0⟩ : Subscription)
    _ (⟨2, 1, 1000, PaymentStatus.succeeded, some "cs_2", none⟩ : Payment)
    (by decide) (by decide) (by decide) (by decide) (by decide) (by decide)

/-- C3: a full-amount refund whose provider call succeeds ends with the
Refund succeeded and, the payment having a linked subscription, cascades to
`cancel_subscription`: the subscription becomes cancelled, its user's
pinned post is removed and a "cancelled" history row is written. -/
theorem full_refund_success_cascades
    (l : Ledger) (p : Payment) (rid sid : Nat) (s : Subscription)
    (hp : findPayment l p.id = some p)
    (href : canBeRefunded l p = true)
    (hval : p.amount ≤ p.amount - sumSucceededRefunds l p.id)
    (hsub : p.subscriptionId = some sid)
    (hs : findSubscription l sid = some s) :
    (create_refund l p.id rid p.amount true).1 = RefundResult.created ∧
    (⟨rid, p.id, p.amount, RefundStatus.succeeded⟩ : Refund)
      ∈ (create_refund l p.id rid p.amount true).2.refunds ∧
    subscriptionHasStatus (create_refund l p.id rid p.amount true).2 sid
      SubscriptionStatus.cancelled = true ∧
    noPinnedFor (create_refund l p.id rid p.amount true).2 s.user = true ∧
    (⟨sid, "cancelled"⟩ : HistoryEntry)
      ∈ (create_refund l p.id rid p.amount true).2.history := by
  have hres : create_refund l p.id rid p.amount true
      = (RefundResult.created,
         cancelSubscription
           (setRefundStatus
             { l with refunds :=
               (l.refunds ++ [⟨rid, p.id, p.amount, RefundStatus.pending⟩]) }
             rid RefundStatus.succeeded)
           sid) := by
    unfold create_refund
    rw [hp]
    simp [href, hval, hsub]
  have hfs : findSubscription
      (setRefundStatus
        { l with refunds :=
          (l.refunds ++ [⟨rid, p.id, p.amount, RefundStatus.pending⟩]) }
        rid RefundStatus.succeeded) sid = some s := hs
  have hcs : cancelSubscription
        (setRefundStatus
          { l with refunds :=
            (l.refunds ++ [⟨rid, p.id, p.amount, RefundStatus.pending⟩]) }
          rid RefundStatus.succeeded) sid
      = addHistory
          (removePinnedPostOfUser
            (setSubscriptionStatus
              (setRefundStatus
                { l with refunds :=
                  (l.refunds ++ [⟨rid, p.id, p.amount, RefundStatus.pending⟩]) }
                rid RefundStatus.succeeded)
              sid SubscriptionStatus.cancelled) s.user)
          sid "cancelled" := by
    unfold cancelSubscription
    rw [hfs]
  refine ⟨by rw [hres], ?_, ?_, ?_, ?_⟩
  · rw [hres, hcs]
    show (⟨rid, p.id, p.amount, RefundStatus.succeeded⟩ : Refund)
      ∈ (l.refunds ++
          ([⟨rid, p.id, p.amount, RefundStatus.pending⟩] : List Refund)).map
          (fun r : Refund =>
            if r.id = rid then { r with status := RefundStatus.succeeded }
            else r)
    refine List.mem_map.mpr
      ⟨⟨rid, p.id, p.amount, RefundStatus.pending⟩, by simp, by simp⟩
  · rw [hres, hcs]
    exact subscriptionHasStatus_set
      (setRefundStatus
        { l with refunds :=
          (l.refunds ++ [⟨rid, p.id, p.amount, RefundStatus.pending⟩]) }
        rid RefundStatus.succeeded) sid SubscriptionStatus.cancelled
  · rw [hres, hcs]
    exact noPinnedFor_remove
      (setSubscriptionStatus
        (setRefundStatus
          { l with refunds :=
            (l.refunds ++ [⟨rid, p.id, p.amount, RefundStatus.pending⟩]) }
          rid RefundStatus.succeeded) sid SubscriptionStatus.cancelled) s.user
  · rw [hres, hcs]
    simp [addHistory]

/-- Witness for C3: full refund of a succeeded 1000-unit payment with an
active subscription and a pinned post. -/
theorem full_refund_success_cascades_witness :
    (create_refund
      (⟨[⟨1, 1, 1000, PaymentStatus.succeeded, some "cs_1", some 4⟩],
        [⟨4, 1, 30, SubscriptionStatus.active, 0, 30⟩], [], [⟨1, 7⟩], [],
        []⟩ : Ledger) 1 9 1000 true).1 = RefundResult.created ∧
    (⟨9, 1, 1000, RefundStatus.succeeded⟩ : Refund)
      ∈ (create_refund
        (⟨[⟨1, 1, 1000, PaymentStatus.succeeded, some "cs_1", some 4⟩],
          [⟨4, 1, 30, SubscriptionStatus.active, 0, 30⟩], [], [⟨1, 7⟩], [],
          []⟩ : Ledger) 1 9 1000 true).2.refunds ∧
    subscriptionHasStatus
      (create_refund
        (⟨[⟨1, 1, 1000, PaymentStatus.succeeded, some "cs_1", some 4⟩],
          [⟨4, 1, 30, SubscriptionStatus.active, 0, 30⟩], [], [⟨1, 7⟩], [],
          []⟩ : Ledger) 1 9 1000 true).2 4 SubscriptionStatus.cancelled
      = true ∧
    noPinnedFor
      (create_refund
        (⟨[⟨1, 1, 1000, PaymentStatus.succeeded, some "cs_1", some 4⟩],
          [⟨4, 1, 30, SubscriptionStatus.active, 0, 30⟩], [], [⟨1, 7⟩], [],
          []⟩ : Ledger) 1 9 1000 true).2 1 = true ∧
    (⟨4, "cancelled"⟩ : HistoryEntry)
      ∈ (create_refund
        (⟨[⟨1, 1, 1000, PaymentStatus.succeeded, some "cs_1", some 4⟩],
          [⟨4, 1, 30, SubscriptionStatus.active, 0, 30⟩], [], [⟨1, 7⟩], [],
          []⟩ : Ledger) 1 9 1000 true).2.history :=
  full_refund_success_cascades _
    (⟨1, 1, 1000, PaymentStatus.succeeded, some "cs_1", some 4⟩ : Payment) 9 4
    (⟨4, 1, 30, SubscriptionStatus.active, 0, 30⟩ : Subscription)
    (by decide) (by decide) (by decide) (by decide) (by decide)

/-- C4: when the provider refund call fails, the Refund is saved as failed
and the rest of the ledger — payments, subscriptions, pinned posts,
history — is exactly what it was: no partial or ambiguous state. -/
theorem refund_provider_failure_leaves_payment
    (l : Ledger) (p : Payment) (rid amount : Nat)
    (hp : findPayment l p.id = some p)
    (href : canBeRefunded l p = true)
    (hval : amount ≤ p.amount - sumSucceededRefunds l p.id) :
    (create_refund l p.id rid amount false).1 = RefundResult.providerFailed ∧
    (create_refund l p.id rid amount false).2.payments = l.payments ∧
    (create_refund l p.id rid amount false).2.subscriptions
      = l.subscriptions ∧
    (create_refund l p.id rid amount false).2.pinnedPosts = l.pinnedPosts ∧
    (create_refund l p.id rid amount false).2.history = l.history ∧
    (⟨rid, p.id, amount, RefundStatus.failed⟩ : Refund)
      ∈ (create_refund l p.id rid amount false).2.refunds := by
  have hres : create_refund l p.id rid amount false
      = (RefundResult.providerFailed,
         setRefundStatus
           { l with refunds :=
             (l.refunds ++ [⟨rid, p.id, amount, RefundStatus.pending⟩]) }
           rid RefundStatus.failed) := by
    unfold create_refund
    rw [hp]
    simp [href, hval]
  rw [hres]
  refine ⟨rfl, rfl, rfl, rfl, rfl, ?_⟩
  show (⟨rid, p.id, amount, RefundStatus.failed⟩ : Refund)
    ∈ (l.refunds ++
        ([⟨rid, p.id, amount, RefundStatus.pending⟩] : List Refund)).map
        (fun r : Refund =>
          if r.id = rid then { r with status := RefundStatus.failed }
          else r)
  exact List.mem_map.mpr
    ⟨⟨rid, p.id, amount, RefundStatus.pending⟩, by simp, by simp⟩

/-- Witness for C4: a 300-unit refund of the same payment with the provider
reporting failure. -/
theorem refund_provider_failure_leaves_payment_witness :
    (create_refund
      (⟨[⟨1, 1, 1000, PaymentStatus.succeeded, some "cs_1", some 4⟩],
        [⟨4, 1, 30, SubscriptionStatus.active, 0, 30⟩], [], [⟨1, 7⟩], [],
        []⟩ : Ledger) 1 9 300 false).1 = RefundResult.providerFailed ∧
    (create_refund
      (⟨[⟨1, 1, 1000, PaymentStatus.succeeded, some "cs_1", some 4⟩],
        [⟨4, 1, 30, SubscriptionStatus.active, 0, 30⟩], [], [⟨1, 7⟩], [],
        []⟩ : Ledger) 1 9 300 false).2.payments
      = [⟨1, 1, 1000, PaymentStatus.succeeded, some "cs_1", some 4⟩] ∧
    (create_refund
      (⟨[⟨1, 1, 1000, PaymentStatus.succeeded, some "cs_1", some 4⟩],
        [⟨4, 1, 30, SubscriptionStatus.active, 0, 30⟩], [], [⟨1, 7⟩], [],
        []⟩ : Ledger) 1 9 300 false).2.subscriptions
      = [⟨4, 1, 30, SubscriptionStatus.active, 0, 30⟩] ∧
    (create_refund
      (⟨[⟨1, 1, 1000, PaymentStatus.succeeded, some "cs_1", some 4⟩],
        [⟨4, 1, 30, SubscriptionStatus.active, 0, 30⟩], [], [⟨1, 7⟩], [],
        []⟩ : Ledger) 1 9 300 false).2.pinnedPosts = [⟨1, 7⟩] ∧
    (create_refund
      (⟨[⟨1, 1, 1000, PaymentStatus.succeeded, some "cs_1", some 4⟩],
        [⟨4, 1, 30, SubscriptionStatus.active, 0, 30⟩], [], [⟨1, 7⟩], [],
        []⟩ : Ledger) 1 9 300 false).2.history = [] ∧
    (⟨9, 1, 300, RefundStatus.failed⟩ : Refund)
      ∈ (create_refund
        (⟨[⟨1, 1, 1000, PaymentStatus.succeeded, some "cs_1", some 4⟩],
          [⟨4, 1, 30, SubscriptionStatus.active, 0, 30⟩], [], [⟨1, 7⟩], [],
          []⟩ : Ledger) 1 9 300 false).2.refunds :=
  refund_provider_failure_leaves_payment _
    (⟨1, 1, 1000, PaymentStatus.succeeded, some "cs_1", some 4⟩ : Payment) 9
    300 (by decide) (by decide) (by decide)

/-- C7: the `payment_status` reconciliation re-queries the provider exactly
when the payment has a session id and a stale (pending/processing) status —
a session-less or terminal payment is answered without a provider call and
without change — and on a "complete"/"failed" session it applies exactly
`process_successful_payment` / `process_failed_payment`, the very
operations the webhook path dispatches, so both paths leave identical
payments, subscriptions and history. -/
theorem payment_status_replays_webhook_path
    (now : Nat) (l : Ledger) (p : Payment) (sid eid : String)
    (g : String → Option String)
    (l3 : Ledger) (p3 : Payment) (l4 : Ledger) (p4 : Payment) (sid4 : String)
    (hp : findPayment l p.id = some p)
    (hsid : p.stripeSessionId = some sid)
    (hstale : p.status = PaymentStatus.pending ∨
      p.status = PaymentStatus.processing)
    (hsess : findPaymentBySession l sid = some p)
    (hnew : findWebhookEvent l eid = none)
    (hp3 : findPayment l3 p3.id = some p3)
    (hnosid : p3.stripeSessionId = none)
    (hp4 : findPayment l4 p4.id = some p4)
    (hsid4 : p4.stripeSessionId = some sid4)
    (hterm : ¬ (p4.status = PaymentStatus.pending ∨
      p4.status = PaymentStatus.processing)) :
    (payment_status now l p.id g).1 = true ∧
    (payment_status now l p.id sessionComplete).2
      = processSuccessfulPayment now l p.id ∧
    (processStripeWebhook now l
        ⟨eid, "checkout.session.completed", sid⟩).2.payments
      = (processSuccessfulPayment now l p.id).payments ∧
    (processStripeWebhook now l
        ⟨eid, "checkout.session.completed", sid⟩).2.subscriptions
      = (processSuccessfulPayment now l p.id).subscriptions ∧
    (processStripeWebhook now l
        ⟨eid, "checkout.session.completed", sid⟩).2.history
      = (processSuccessfulPayment now l p.id).history ∧
    (payment_status now l p.id sessionFailed).2 = processFailedPayment l p.id ∧
    (processStripeWebhook now l
        ⟨eid, "payment_intent.payment_failed", sid⟩).2.payments
      = (processFailedPayment l p.id).payments ∧
    (processStripeWebhook now l
        ⟨eid, "payment_intent.payment_failed", sid⟩).2.subscriptions
      = (processFailedPayment l p.id).subscriptions ∧
    (processStripeWebhook now l
        ⟨eid, "payment_intent.payment_failed", sid⟩).2.history
      = (processFailedPayment l p.id).history ∧
    payment_status now l3 p3.id g = (false, l3) ∧
    payment_status now l4 p4.id g = (false, l4) := by
  have hflag : (payment_status now l p.id g).1 = true := by
    unfold payment_status
    rw [hp]
    dsimp only
    rw [hsid]
    dsimp only
    rw [if_pos hstale]
    cases g sid with
    | none => rfl
    | some st =>
      dsimp only
      by_cases h1 : st = "complete"
      · simp [h1]
      · by_cases h2 : st = "failed" <;> simp [h1, h2]
  have hcomp : (payment_status now l p.id sessionComplete).2
      = processSuccessfulPayment now l p.id := by
    unfold payment_status sessionComplete
    rw [hp]
    dsimp only
    rw [hsid]
    dsimp only
    rw [if_pos hstale]
    rfl
  have hfail : (payment_status now l p.id sessionFailed).2
      = processFailedPayment l p.id := by
    unfold payment_status sessionFailed
    rw [hp]
    dsimp only
    rw [hsid]
    dsimp only
    rw [if_pos hstale]
    rfl
  have hno3 : payment_status now l3 p3.id g = (false, l3) := by
    unfold payment_status
    rw [hp3]
    dsimp only
    rw [hnosid]
  have hno4 : payment_status now l4 p4.id g = (false, l4) := by
    unfold payment_status
    rw [hp4]
    dsimp only
    rw [hsid4]
    dsimp only
    rw [if_neg hterm]
  refine ⟨hflag, hcomp, ?_, ?_, ?_, hfail, ?_, ?_, ?_, hno3, hno4⟩
  · rw [processStripeWebhook_completed now l eid sid p hnew hsess]
    rfl
  · rw [processStripeWebhook_completed now l eid sid p hnew hsess]
    rfl
  · rw [processStripeWebhook_completed now l eid sid p hnew hsess]
    rfl
  · rw [processStripeWebhook_failedEvent now l eid sid p hnew hsess]
    rfl
  · rw [processStripeWebhook_failedEvent now l eid sid p hnew hsess]
    rfl
  · rw [processStripeWebhook_failedEvent now l eid sid p hnew hsess]
    rfl

/-- Witness for C7 at concrete ledgers: a stale pending payment with
session "cs_1", a session-less payment and a terminal one. -/
theorem payment_status_replays_webhook_path_witness :
    (payment_status 100 c7Ledger 1 sessionUnknown).1 = true ∧
    (payment_status 100 c7Ledger 1 sessionComplete).2
      = processSuccessfulPayment 100 c7Ledger 1 ∧
    (processStripeWebhook 100 c7Ledger
        ⟨"evt_9", "checkout.session.completed", "cs_1"⟩).2.payments
      = (processSuccessfulPayment 100 c7Ledger 1).payments ∧
    (processStripeWebhook 100 c7Ledger
        ⟨"evt_9", "checkout.session.completed", "cs_1"⟩).2.subscriptions
      = (processSuccessfulPayment 100 c7Ledger 1).subscriptions ∧
    (processStripeWebhook 100 c7Ledger
        ⟨"evt_9", "checkout.session.completed", "cs_1"⟩).2.history
      = (processSuccessfulPayment 100 c7Ledger 1).history ∧
    (payment_status 100 c7Ledger 1 sessionFailed).2
      = processFailedPayment c7Ledger 1 ∧
    (processStripeWebhook 100 c7Ledger
        ⟨"evt_9", "payment_intent.payment_failed", "cs_1"⟩).2.payments
      = (processFailedPayment c7Ledger 1).payments ∧
    (processStripeWebhook 100 c7Ledger
        ⟨"evt_9", "payment_intent.payment_failed", "cs_1"⟩).2.subscriptions
      = (processFailedPayment c7Ledger 1).subscriptions ∧
    (processStripeWebhook 100 c7Ledger
        ⟨"evt_9", "payment_intent.payment_failed", "cs_1"⟩).2.history
      = (processFailedPayment c7Ledger 1).history ∧
    payment_status 100 c7NoSession 2 sessionUnknown = (false, c7NoSession) ∧
    payment_status 100 c7Terminal 3 sessionUnknown = (false, c7Terminal) :=
  payment_status_replays_webhook_path 100 c7Ledger c7Payment "cs_1" "evt_9"
    sessionUnknown c7NoSession c7PaymentNoSession c7Terminal
    c7PaymentTerminal "cs_3" (by decide) (by decide) (by decide) (by decide)
    (by decide) (by decide) (by decide) (by decide) (by decide) (by decide)

/-- C10: deleting a Subscription row fires the pre-delete hook, which
deletes its user's PinnedPost if one exists, so no pinned post of that user
survives the deletion.  The hypothesis is the one-to-one constraint of the
PinnedPost table: at most one row per user. -/
theorem subscription_delete_removes_pinned (l : Ledger) (sid : Nat)
    (s : Subscription)
    (hs : findSubscription l sid = some s)
    (huniq : ∀ q ∈ l.pinnedPosts, ∀ r ∈ l.pinnedPosts, q.user = r.user → q = r) :
    noPinnedFor (deleteSubscription l sid) s.user = true := by
  rw [noPinnedFor, List.all_eq_true]
  intro q hq
  unfold deleteSubscription at hq
  rw [hs] at hq
  have hq1 : q ∈ (subscription_pre_delete l s).pinnedPosts := hq
  unfold subscription_pre_delete at hq1
  cases hpp : userPinnedPost l s.user with
  | none =>
    rw [hpp] at hq1
    have := List.find?_eq_none.mp hpp q hq1
    simpa using this
  | some pp =>
    rw [hpp] at hq1
    unfold deletePinnedPost at hq1
    have hq2 : q ∈ (pinned_post_pre_delete l pp).pinnedPosts.filter
        (fun r => ¬ r = pp) := hq1
    rw [pinned_post_pre_delete_pinned] at hq2
    have hq3 := List.mem_filter.mp hq2
    have hppmem : pp ∈ l.pinnedPosts := List.mem_of_find?_eq_some hpp
    have hppuser : pp.user = s.user := by
      have := List.find?_some hpp
      simpa using this
    simp only [decide_eq_true_eq]
    intro hqu
    have : q = pp := huniq q hq3.1 pp hppmem (by rw [hqu, hppuser])
    have hne := hq3.2
    simp [this] at hne

/-- Witness for C10 at a ledger with one active subscription and a pinned
post of its user. -/
theorem subscription_delete_removes_pinned_witness :
    noPinnedFor
      (deleteSubscription
        (⟨[], [⟨4, 1, 30, SubscriptionStatus.active, 0, 30⟩], [], [⟨1, 7⟩],
          [], []⟩ : Ledger) 4) 1 = true :=
  subscription_delete_removes_pinned _ 4
    (⟨4, 1, 30, SubscriptionStatus.active, 0, 30⟩ : Subscription)
    (by decide) (by decide)

end DrfNews
